import Mathlib

/-!
Verification of the graph sampling / geofiltering scripts
(`crear_muestra_calles.py`): shallow embedding of the data model,
the two pipelines (`crear_muestra_calles`, `crear_muestra_centro`),
the haversine distance `calcular_distancia`, and proofs of the
documented invariants.
-/

open List

/-- Degrees to radians, as Python's `math.radians`. -/
noncomputable def radians (x : ℝ) : ℝ := x * Real.pi / 180

/-- The inner helper `calcular_distancia` of `crear_muestra_centro`:
haversine distance on a sphere of radius 6371000 m, degree inputs. -/
noncomputable def calcular_distancia (lat1 lon1 lat2 lon2 : ℝ) : ℝ :=
  let R : ℝ := 6371000
  let dlat := radians (lat2 - lat1)
  let dlon := radians (lon2 - lon1)
  let a := Real.sin (dlat / 2) ^ 2 +
    Real.cos (radians lat1) * Real.cos (radians lat2) * Real.sin (dlon / 2) ^ 2
  let c := 2 * Real.arcsin (Real.sqrt a)
  R * c

/-- A node record of the dataset JSON (`extraer_calles_reales.py` schema).
The sampling scripts only inspect `id`, `lat` and `lon`; the remaining
fields are carried through unchanged. -/
structure Node where
  id : Nat
  lat : ℝ
  lon : ℝ
  elevation : Option ℝ
  type : String
  street_names : List String

/-- An edge record of the dataset JSON. Only `from` and `to` are
inspected by the sampling scripts. -/
structure Edge where
  «from» : Nat
  «to» : Nat
  weight : ℝ
  street_name : String
  street_type : String
  one_way : Bool
  max_speed : ℝ

/-- Metadata of an input dataset, as written by `extraer_calles_ciudad`. -/
structure Metadata where
  city : String
  source : String
  extracted_date : String
  total_nodes : Nat
  total_edges : Nat
  network_type : String
  simplified : Bool

/-- An input dataset (the parsed JSON file). The free-text `description`
field is not modelled (never inspected by the scripts). -/
structure Dataset where
  nodes : List Node
  edges : List Edge
  metadata : Metadata

/-- Metadata dict built by `crear_muestra_calles` (random-sample variant). -/
structure MetadataMuestra where
  city : String
  source : String
  extracted_date : String
  total_nodes : Nat
  total_edges : Nat
  network_type : String
  sample_size : Int
  original_nodes : Nat
  original_edges : Nat

/-- Metadata dict built by `crear_muestra_centro` (radius variant). -/
structure MetadataCentro where
  city : String
  source : String
  extracted_date : String
  total_nodes : Nat
  total_edges : Nat
  network_type : String
  center_lat : ℝ
  center_lon : ℝ
  radius_km : ℝ
  original_nodes : Nat
  original_edges : Nat

/-- Output dataset of the random-sample pipeline. -/
structure MuestraCalles where
  nodes : List Node
  edges : List Edge
  metadata : MetadataMuestra

/-- Output dataset of the radius pipeline. -/
structure MuestraCentro where
  nodes : List Node
  edges : List Edge
  metadata : MetadataCentro

/-- Outcome of one pipeline run, recording whether the output file was
written before any exception: `errorBeforeWrite` models an exception
raised before the `open(archivo_muestra, 'w')` call (destination file
untouched), `wroteThenError` an exception raised after the dump
(file already holds `written`), `success` a clean run. -/
inductive RunResult (μ : Type) where
  | errorBeforeWrite (msg : String) : RunResult μ
  | wroteThenError (written : μ) (msg : String) : RunResult μ
  | success (written : μ) : RunResult μ

/-- The dataset present in the destination file after the run
(`none` when the run failed before writing). -/
def RunResult.written : RunResult μ → Option μ
  | .errorBeforeWrite _ => none
  | .wroteThenError m _ => some m
  | .success m => some m

/-- Model of `random.sample`'s selection loop: at step `i` draw the
element at index `rand i % pool.length` of the remaining pool and
remove it (sampling without replacement; the randomness source is the
explicit stream `rand`). -/
def sampleGo (rand : Nat → Nat) : Nat → Nat → List α → List α
  | _, 0, _ => []
  | _, _ + 1, [] => []
  | i, k + 1, p :: ps =>
    let j := rand i % (p :: ps).length
    (p :: ps).get ⟨j, Nat.mod_lt _ (Nat.succ_pos _)⟩ ::
      sampleGo rand (i + 1) k ((p :: ps).eraseIdx j)

/-- Model of `random.sample(population, k)`: raises `ValueError` unless
`0 <= k <= len(population)`, otherwise draws `k` distinct elements. -/
def randomSample (rand : Nat → Nat) (population : List α) (k : Int) :
    Except String (List α) :=
  if k < 0 ∨ (population.length : Int) < k then
    .error "Sample larger than population or is negative"
  else
    .ok (sampleGo rand 0 k.toNat population)

/-- The scripts' edge/node filtering loops: iterate over `xs`, appending
each element satisfying `p` to an accumulator list. -/
def filterAppend (p : α → Prop) [DecidablePred p] (xs : List α) : List α :=
  xs.foldl (fun acc x => if p x then acc ++ [x] else acc) []

/-- Python integer true division `a / b`: raises `ZeroDivisionError`
when `b = 0`. Used for the density and reduction statistics prints. -/
def pyDiv (a b : Nat) : Except String ℚ :=
  if b = 0 then .error "ZeroDivisionError" else .ok ((a : ℚ) / (b : ℚ))

/-- The id set `ids_nodos_muestra = {nodo['id'] for nodo in nodos}`;
only membership tests are performed on it, so a list of ids is an
adequate model of the Python set. -/
def idsDe (nodos : List Node) : List Nat := nodos.map Node.id

/-- The edge filtering loop common to both pipelines: keep an edge iff
both its `from` and its `to` id belong to `ids`. -/
def filtrarAristas (edges : List Edge) (ids : List Nat) : List Edge :=
  filterAppend (fun a => a.«from» ∈ ids ∧ a.to ∈ ids) edges

/-- The `muestra` dict built by `crear_muestra_calles` from the sampled
nodes: filtered edges, hard-coded static metadata fields, counts taken
from the reduced lists, and the sampling parameters. -/
def armarMuestraCalles (data : Dataset) (max_nodos : Int)
    (nodos_muestra : List Node) : MuestraCalles :=
  let aristas_muestra := filtrarAristas data.edges (idsDe nodos_muestra)
  { nodes := nodos_muestra
    edges := aristas_muestra
    metadata :=
      { city := "Culiacán, Sinaloa, México"
        source := "OpenStreetMap via OSMnx"
        extracted_date := "2024-01-15"
        total_nodes := nodos_muestra.length
        total_edges := aristas_muestra.length
        network_type := "drive"
        sample_size := max_nodos
        original_nodes := data.nodes.length
        original_edges := data.edges.length } }

/-- Classify the part of a run that comes after the output file has
been dumped (the statistics prints): the file already holds `m`,
whether or not a division in the statistics raised. -/
def despuesDeEscribir (m : μ) (stats : Except String Unit) : RunResult μ :=
  match stats with
  | .error e => .wroteThenError m e
  | .ok _ => .success m

/-- The statistics prints of `crear_muestra_calles`: the density
division `len(aristas)/len(nodos)` and the reduction division
`len(nodos)/len(data['nodes'])`, in program order. -/
def estadisticasCalles (muestra : MuestraCalles) (data : Dataset) :
    Except String Unit :=
  match pyDiv muestra.edges.length muestra.nodes.length with
  | .error e => .error e
  | .ok _ =>
    match pyDiv muestra.nodes.length data.nodes.length with
    | .error e => .error e
    | .ok _ => .ok ()

/-- `crear_muestra_calles(archivo_original, archivo_muestra, max_nodos)`
after the JSON load: sample `min(max_nodos, len(nodes))` nodes
(`random.sample` may raise — before the write), build the sample, write
it, then print the statistics, whose density and reduction divisions
may raise `ZeroDivisionError` — after the write. -/
def crear_muestra_calles (rand : Nat → Nat) (data : Dataset)
    (max_nodos : Int) : RunResult MuestraCalles :=
  match randomSample rand data.nodes (min max_nodos (data.nodes.length : Int)) with
  | .error e => .errorBeforeWrite e
  | .ok nodos_muestra =>
    let muestra := armarMuestraCalles data max_nodos nodos_muestra
    despuesDeEscribir muestra (estadisticasCalles muestra data)

/-- The node filtering loop of `crear_muestra_centro`: keep the nodes
whose haversine distance to the center is at most `radio_metros`. -/
noncomputable def filtrarNodosCentro (nodes : List Node)
    (centro_lat centro_lon radio_metros : ℝ) : List Node :=
  filterAppend
    (fun nodo => calcular_distancia centro_lat centro_lon nodo.lat nodo.lon ≤ radio_metros)
    nodes

/-- The `muestra_centro` dict built by `crear_muestra_centro` from the
retained nodes. -/
def armarMuestraCentro (data : Dataset) (centro_lat centro_lon radio_km : ℝ)
    (nodos_centro : List Node) : MuestraCentro :=
  let aristas_centro := filtrarAristas data.edges (idsDe nodos_centro)
  { nodes := nodos_centro
    edges := aristas_centro
    metadata :=
      { city := "Culiacán, Sinaloa, México"
        source := "OpenStreetMap via OSMnx"
        extracted_date := "2024-01-15"
        total_nodes := nodos_centro.length
        total_edges := aristas_centro.length
        network_type := "drive"
        center_lat := centro_lat
        center_lon := centro_lon
        radius_km := radio_km
        original_nodes := data.nodes.length
        original_edges := data.edges.length } }

/-- The statistics prints of `crear_muestra_centro`: the density
division `len(aristas)/len(nodos)`. -/
def estadisticasCentro (muestra : MuestraCentro) : Except String Unit :=
  match pyDiv muestra.edges.length muestra.nodes.length with
  | .error e => .error e
  | .ok _ => .ok ()

/-- `crear_muestra_centro(archivo_original, archivo_muestra, centro_lat,
centro_lon, radio_km)` after the JSON load: filter nodes within
`radio_km * 1000` meters, filter edges, write the sample, then print the
statistics, whose density division may raise `ZeroDivisionError` —
after the write. -/
noncomputable def crear_muestra_centro (data : Dataset)
    (centro_lat centro_lon radio_km : ℝ) : RunResult MuestraCentro :=
  let radio_metros := radio_km * 1000
  let nodos_centro := filtrarNodosCentro data.nodes centro_lat centro_lon radio_metros
  let muestra := armarMuestraCentro data centro_lat centro_lon radio_km nodos_centro
  despuesDeEscribir muestra (estadisticasCentro muestra)

/-! ### Concrete fixtures used to exercise the pipelines -/

/-- A deterministic randomness stream (always draws index 0). -/
def r0 : Nat → Nat := fun _ => 0

/-- A concrete node. -/
def nodoA : Node :=
  { id := 1, lat := 0, lon := 0, elevation := none,
    type := "intersection", street_names := [] }

/-- A concrete node. -/
def nodoB : Node :=
  { id := 2, lat := 0, lon := 1, elevation := none,
    type := "intersection", street_names := [] }

/-- A concrete edge between `nodoA` and `nodoB`. -/
def aristaAB : Edge :=
  { «from» := 1, «to» := 2, weight := 100, street_name := "Calle 1",
    street_type := "residential", one_way := false, max_speed := 50 }

/-- A concrete edge whose `to` endpoint (id 3) is outside `{1, 2}`. -/
def aristaB3 : Edge :=
  { «from» := 2, «to» := 3, weight := 250, street_name := "Calle 2",
    street_type := "residential", one_way := true, max_speed := 50 }

/-- Original metadata deliberately different from the constants the
scripts hard-code into their outputs. -/
def metaOriginal : Metadata :=
  { city := "Springfield", source := "survey", extracted_date := "2000-01-01",
    total_nodes := 7, total_edges := 9, network_type := "walk",
    simplified := false }

/-- A dataset with no nodes at all. -/
def datasetVacio : Dataset :=
  { nodes := [], edges := [], metadata := metaOriginal }

/-- A dataset with two nodes and two edges, one of them dangling. -/
def dataset2 : Dataset :=
  { nodes := [nodoA, nodoB], edges := [aristaAB, aristaB3],
    metadata := metaOriginal }

/-- The haversine formula exactly as displayed in the documentation
(`a = sin²(Δlat/2) + cos(lat1)·cos(lat2)·sin²(Δlon/2)`,
`d = 2·R·asin(√a)`, R = 6371000, all angular inputs converted from
degrees to radians), used to compare the code's `calcular_distancia`
against the documented formula. -/
noncomputable def haversineSpec (lat1 lon1 lat2 lon2 : ℝ) : ℝ :=
  let a := Real.sin ((radians lat2 - radians lat1) / 2) ^ 2 +
    Real.cos (radians lat1) * Real.cos (radians lat2) *
      Real.sin ((radians lon2 - radians lon1) / 2) ^ 2
  2 * 6371000 * Real.arcsin (Real.sqrt a)

/-- An output edge list is consistent with an input edge list and an
output node list when it holds exactly the input edges with both
endpoints among the output nodes' ids. -/
def edgesConsistentes (edgesIn : List Edge) (nodesOut : List Node)
    (edgesOut : List Edge) : Prop :=
  ∀ e, e ∈ edgesOut ↔
    e ∈ edgesIn ∧ e.«from» ∈ idsDe nodesOut ∧ e.to ∈ idsDe nodesOut

/-- No dangling references: every edge's endpoints are ids of the
accompanying node list. -/
def sinReferenciasColgantes (nodesOut : List Node) (edgesOut : List Edge) : Prop :=
  ∀ e ∈ edgesOut, e.«from» ∈ idsDe nodesOut ∧ e.to ∈ idsDe nodesOut

/-- The output `crear_muestra_calles` builds on `dataset2` with
`max_nodos = 2` under the stream `r0` (the sampler then returns
`[nodoA, nodoB]`). -/
def muestraCalles2 : MuestraCalles := armarMuestraCalles dataset2 2 [nodoA, nodoB]

/-- The output `crear_muestra_centro` builds on `dataset2` centered at
(0, 0) with radius 2 km. -/
noncomputable def muestraCentro2 : MuestraCentro :=
  armarMuestraCentro dataset2 0 0 2 (filtrarNodosCentro dataset2.nodes 0 0 (2 * 1000))

/-- The output `crear_muestra_centro` builds on `dataset2` centered at
(0, 0) with radius 1 km. -/
noncomputable def muestraCentro1 : MuestraCentro :=
  armarMuestraCentro dataset2 0 0 1 (filtrarNodosCentro dataset2.nodes 0 0 (1 * 1000))

/-! ### Helper lemmas -/

theorem foldl_filterAppend (p : α → Prop) [DecidablePred p]
    (xs acc : List α) :
    xs.foldl (fun a x => if p x then a ++ [x] else a) acc =
      acc ++ xs.filter (fun x => decide (p x)) := by
  induction xs generalizing acc with
  | nil => simp
  | cons x xs ih =>
    by_cases hx : p x
    · simp [List.foldl_cons, hx, ih, List.filter_cons, List.append_assoc]
    · simp [List.foldl_cons, hx, ih, List.filter_cons]

theorem filterAppend_eq_filter (p : α → Prop) [DecidablePred p]
    (xs : List α) :
    filterAppend p xs = xs.filter (fun x => decide (p x)) := by
  simpa using foldl_filterAppend p xs []

theorem mem_filterAppend (p : α → Prop) [DecidablePred p]
    (xs : List α) (a : α) :
    a ∈ filterAppend p xs ↔ a ∈ xs ∧ p a := by
  rw [filterAppend_eq_filter]
  simp [List.mem_filter]

theorem filterAppend_sublist (p : α → Prop) [DecidablePred p]
    (xs : List α) :
    filterAppend p xs <+ xs := by
  rw [filterAppend_eq_filter]
  exact List.filter_sublist xs

theorem get_cons_eraseIdx_perm (l : List α) (j : Nat) (h : j < l.length) :
    l.get ⟨j, h⟩ :: l.eraseIdx j ~ l := by
  induction l generalizing j with
  | nil => simp at h
  | cons x xs ih =>
    cases j with
    | zero => simp [List.eraseIdx]
    | succ j =>
      have hj : j < xs.length := by simpa using h
      calc (x :: xs).get ⟨j + 1, h⟩ :: (x :: xs).eraseIdx (j + 1)
          = xs.get ⟨j, hj⟩ :: x :: xs.eraseIdx j := rfl
        _ ~ x :: xs.get ⟨j, hj⟩ :: xs.eraseIdx j := List.Perm.swap _ _ _
        _ ~ x :: xs := (ih j hj).cons x

theorem sampleGo_length (rand : Nat → Nat) (k : Nat) :
    ∀ (i : Nat) (xs : List α), k ≤ xs.length →
      (sampleGo rand i k xs).length = k := by
  induction k with
  | zero => intro i xs _; rfl
  | succ k ih =>
    intro i xs h
    cases xs with
    | nil => simp at h
    | cons p ps =>
      have hj : rand i % (p :: ps).length < (p :: ps).length :=
        Nat.mod_lt _ (Nat.succ_pos _)
      have herase := List.length_eraseIdx_add_one hj
      have hk : k ≤ ((p :: ps).eraseIdx (rand i % (p :: ps).length)).length := by
        simp only [List.length_cons] at h herase ⊢
        omega
      show ((p :: ps).get _ :: sampleGo rand (i + 1) k _).length = k + 1
      simpa using ih (i + 1) _ hk

theorem sampleGo_subperm (rand : Nat → Nat) (k : Nat) :
    ∀ (i : Nat) (xs : List α), sampleGo rand i k xs <+~ xs := by
  induction k with
  | zero => intro i xs; exact List.nil_subperm
  | succ k ih =>
    intro i xs
    cases xs with
    | nil => exact List.nil_subperm
    | cons p ps =>
      have hj : rand i % (p :: ps).length < (p :: ps).length :=
        Nat.mod_lt _ (Nat.succ_pos _)
      show (p :: ps).get ⟨_, hj⟩ ::
          sampleGo rand (i + 1) k ((p :: ps).eraseIdx _) <+~ p :: ps
      exact ((List.subperm_cons _).mpr (ih (i + 1) _)).trans
        (get_cons_eraseIdx_perm _ _ hj).subperm

theorem sampleGo_perm_of_full (rand : Nat → Nat) (i : Nat) (xs : List α) :
    sampleGo rand i xs.length xs ~ xs :=
  (sampleGo_subperm rand xs.length i xs).perm_of_length_le
    (le_of_eq (sampleGo_length rand xs.length i xs le_rfl).symm)

theorem randomSample_ok (rand : Nat → Nat) (xs : List α) (k : Int)
    (hk : 0 ≤ k) (hn : k ≤ (xs.length : Int)) :
    randomSample rand xs k = .ok (sampleGo rand 0 k.toNat xs) := by
  unfold randomSample
  rw [if_neg]
  push_neg
  exact ⟨hk, hn⟩

theorem despuesDeEscribir_written (m : μ) (stats : Except String Unit) :
    (despuesDeEscribir m stats).written = some m := by
  cases stats <;> rfl

theorem crear_muestra_calles_written (rand : Nat → Nat) (data : Dataset)
    (max_nodos : Int) (m : MuestraCalles)
    (h : (crear_muestra_calles rand data max_nodos).written = some m) :
    ∃ nodos,
      randomSample rand data.nodes (min max_nodos (data.nodes.length : Int)) =
        .ok nodos ∧
      m = armarMuestraCalles data max_nodos nodos := by
  unfold crear_muestra_calles at h
  cases hs : randomSample rand data.nodes (min max_nodos (data.nodes.length : Int)) with
  | error e => rw [hs] at h; simp [RunResult.written] at h
  | ok nodos =>
    rw [hs] at h
    rw [despuesDeEscribir_written] at h
    exact ⟨nodos, rfl, (Option.some_injective _ h).symm⟩

theorem crear_muestra_centro_written (data : Dataset)
    (centro_lat centro_lon radio_km : ℝ) :
    (crear_muestra_centro data centro_lat centro_lon radio_km).written =
      some (armarMuestraCentro data centro_lat centro_lon radio_km
        (filtrarNodosCentro data.nodes centro_lat centro_lon (radio_km * 1000))) := by
  unfold crear_muestra_centro
  exact despuesDeEscribir_written _ _

theorem filtrarAristas_consistentes (edges : List Edge) (nodos : List Node) :
    edgesConsistentes edges nodos (filtrarAristas edges (idsDe nodos)) := by
  intro e
  rw [filtrarAristas, mem_filterAppend]

theorem consistentes_sin_colgantes
    (h : edgesConsistentes edgesIn nodesOut edgesOut) :
    sinReferenciasColgantes nodesOut edgesOut :=
  fun e he => ((h e).mp he).2

theorem mem_filtrarNodosCentro (nodes : List Node)
    (centro_lat centro_lon radio_metros : ℝ) (n : Node) :
    n ∈ filtrarNodosCentro nodes centro_lat centro_lon radio_metros ↔
      n ∈ nodes ∧
        calcular_distancia centro_lat centro_lon n.lat n.lon ≤ radio_metros := by
  rw [filtrarNodosCentro]
  exact mem_filterAppend _ nodes n

theorem filtrarNodosCentro_sublist (nodes : List Node)
    (centro_lat centro_lon radio_metros : ℝ) :
    filtrarNodosCentro nodes centro_lat centro_lon radio_metros <+ nodes :=
  filterAppend_sublist _ nodes

/-! ### Claim theorems -/

/-- C1: for every input dataset and every selected node set (random
sample or geo-radius), an edge of the input is retained in the output
iff both its `from` and its `to` id belong to the selected id set (the
ids of the output's nodes); consequently every produced output dataset
has no dangling edge references. -/
theorem C1_edge_retention_and_no_dangling
    (rand : Nat → Nat) (data : Dataset) (max_nodos : Int)
    (centro_lat centro_lon radio_km : ℝ)
    (m₁ : MuestraCalles) (m₂ : MuestraCentro)
    (h₁ : (crear_muestra_calles rand data max_nodos).written = some m₁)
    (h₂ : (crear_muestra_centro data centro_lat centro_lon radio_km).written = some m₂) :
    (edgesConsistentes data.edges m₁.nodes m₁.edges ∧
      sinReferenciasColgantes m₁.nodes m₁.edges) ∧
    (edgesConsistentes data.edges m₂.nodes m₂.edges ∧
      sinReferenciasColgantes m₂.nodes m₂.edges) := by
  obtain ⟨nodos, -, rfl⟩ := crear_muestra_calles_written rand data max_nodos m₁ h₁
  rw [crear_muestra_centro_written] at h₂
  have hm₂ := (Option.some_injective _ h₂).symm
  subst hm₂
  exact ⟨⟨filtrarAristas_consistentes _ _,
      consistentes_sin_colgantes (filtrarAristas_consistentes _ _)⟩,
    ⟨filtrarAristas_consistentes _ _,
      consistentes_sin_colgantes (filtrarAristas_consistentes _ _)⟩⟩

/-- Witness for C1: a concrete run of both pipelines on `dataset2`. -/
theorem C1_witness :
    (edgesConsistentes dataset2.edges muestraCalles2.nodes muestraCalles2.edges ∧
      sinReferenciasColgantes muestraCalles2.nodes muestraCalles2.edges) ∧
    (edgesConsistentes dataset2.edges muestraCentro2.nodes muestraCentro2.edges ∧
      sinReferenciasColgantes muestraCentro2.nodes muestraCentro2.edges) :=
  C1_edge_retention_and_no_dangling r0 dataset2 2 0 0 2 muestraCalles2 muestraCentro2
    rfl (crear_muestra_centro_written dataset2 0 0 2)

/-- C2: in every produced output dataset, `metadata.total_nodes` equals
the length of the output's node list and `metadata.total_edges` the
length of its edge list, for both pipelines and for every input (in
particular the counts are never the original metadata's counts). -/
theorem C2_metadata_counts
    (rand : Nat → Nat) (data : Dataset) (max_nodos : Int)
    (centro_lat centro_lon radio_km : ℝ)
    (m₁ : MuestraCalles) (m₂ : MuestraCentro)
    (h₁ : (crear_muestra_calles rand data max_nodos).written = some m₁)
    (h₂ : (crear_muestra_centro data centro_lat centro_lon radio_km).written = some m₂) :
    (m₁.metadata.total_nodes = m₁.nodes.length ∧
      m₁.metadata.total_edges = m₁.edges.length) ∧
    (m₂.metadata.total_nodes = m₂.nodes.length ∧
      m₂.metadata.total_edges = m₂.edges.length) := by
  obtain ⟨nodos, -, rfl⟩ := crear_muestra_calles_written rand data max_nodos m₁ h₁
  rw [crear_muestra_centro_written] at h₂
  have hm₂ := (Option.some_injective _ h₂).symm
  subst hm₂
  exact ⟨⟨rfl, rfl⟩, ⟨rfl, rfl⟩⟩

/-- Witness for C2: a concrete run of both pipelines on `dataset2`. -/
theorem C2_witness :
    (muestraCalles2.metadata.total_nodes = muestraCalles2.nodes.length ∧
      muestraCalles2.metadata.total_edges = muestraCalles2.edges.length) ∧
    (muestraCentro2.metadata.total_nodes = muestraCentro2.nodes.length ∧
      muestraCentro2.metadata.total_edges = muestraCentro2.edges.length) :=
  C2_metadata_counts r0 dataset2 2 0 0 2 muestraCalles2 muestraCentro2
    rfl (crear_muestra_centro_written dataset2 0 0 2)

/-- C3: for every node list and every `max_nodos`, the sampling step of
`crear_muestra_calles` (which calls `random.sample` with
`min(max_nodos, len(nodes))`) succeeds and returns exactly
`min(max_nodos, len(nodes))` nodes drawn without replacement; when
`max_nodos ≥ len(nodes)` the result is the entire input node set (a
permutation of it) — clipping, not failure. -/
theorem C3_sampler_clipping (rand : Nat → Nat) (nodes : List Node)
    (max_nodos : Nat) :
    ∃ nodos_muestra : List Node,
      randomSample rand nodes (min ((max_nodos : Int)) ((nodes.length : Int))) =
        .ok nodos_muestra ∧
      nodos_muestra.length = min max_nodos nodes.length ∧
      nodos_muestra <+~ nodes ∧
      (nodes.length ≤ max_nodos → nodos_muestra ~ nodes) := by
  have hcast : min ((max_nodos : Int)) ((nodes.length : Int)) =
      ((min max_nodos nodes.length : Nat) : Int) := (Nat.cast_min ..).symm
  have hk : (0 : Int) ≤ min ((max_nodos : Int)) ((nodes.length : Int)) :=
    le_min (Int.natCast_nonneg _) (Int.natCast_nonneg _)
  have hn : min ((max_nodos : Int)) ((nodes.length : Int)) ≤ (nodes.length : Int) :=
    min_le_right _ _
  refine ⟨_, randomSample_ok rand nodes _ hk hn, ?_, ?_, ?_⟩
  · rw [hcast, Int.toNat_natCast]
    exact sampleGo_length rand _ 0 nodes (min_le_right _ _)
  · exact sampleGo_subperm rand _ 0 nodes
  · intro hle
    rw [hcast, Int.toNat_natCast, min_eq_right hle]
    exact sampleGo_perm_of_full rand 0 nodes

/-- Witness for C3: the sampling step on `dataset2.nodes` with
`max_nodos = 2`. -/
theorem C3_witness :
    ∃ nodos_muestra : List Node,
      randomSample r0 dataset2.nodes
          (min (((2 : Nat) : Int)) ((dataset2.nodes.length : Int))) =
        .ok nodos_muestra ∧
      nodos_muestra.length = min 2 dataset2.nodes.length ∧
      nodos_muestra <+~ dataset2.nodes ∧
      (dataset2.nodes.length ≤ 2 → nodos_muestra ~ dataset2.nodes) :=
  C3_sampler_clipping r0 dataset2.nodes 2

/-- C4: the node selection of `crear_muestra_centro` retains exactly
those input nodes whose haversine distance to the center is at most
`radio_km * 1000` meters (inclusive boundary), and the retained nodes
keep their relative input order (the output node list is a sublist of
the input list). -/
theorem C4_geo_radius_filter
    (data : Dataset) (centro_lat centro_lon radio_km : ℝ) (m : MuestraCentro)
    (h : (crear_muestra_centro data centro_lat centro_lon radio_km).written = some m) :
    m.nodes = filtrarNodosCentro data.nodes centro_lat centro_lon (radio_km * 1000) ∧
    (∀ n, n ∈ m.nodes ↔ n ∈ data.nodes ∧
      calcular_distancia centro_lat centro_lon n.lat n.lon ≤ radio_km * 1000) ∧
    m.nodes <+ data.nodes := by
  rw [crear_muestra_centro_written] at h
  have hm := (Option.some_injective _ h).symm
  subst hm
  exact ⟨rfl, fun n => mem_filtrarNodosCentro _ _ _ _ n,
    filtrarNodosCentro_sublist _ _ _ _⟩

/-- Witness for C4: a concrete radius run on `dataset2`. -/
theorem C4_witness :
    muestraCentro2.nodes = filtrarNodosCentro dataset2.nodes 0 0 ((2 : ℝ) * 1000) ∧
    (∀ n, n ∈ muestraCentro2.nodes ↔ n ∈ dataset2.nodes ∧
      calcular_distancia 0 0 n.lat n.lon ≤ (2 : ℝ) * 1000) ∧
    muestraCentro2.nodes <+ dataset2.nodes :=
  C4_geo_radius_filter dataset2 0 0 2 muestraCentro2
    (crear_muestra_centro_written dataset2 0 0 2)

/-- C5: refutation of the claimed guard — the density computation
`len(edges)/len(nodes)` has no `total_nodes == 0` guard: on a run whose
reduced dataset has zero nodes, both pipelines raise
`ZeroDivisionError` (after the output was written). `pyDiv 0 0` models
the unguarded Python division at those program points. -/
theorem C5_density_unguarded_division :
    pyDiv 0 0 = .error "ZeroDivisionError" ∧
    crear_muestra_calles r0 datasetVacio 10 =
      .wroteThenError (armarMuestraCalles datasetVacio 10 []) "ZeroDivisionError" ∧
    crear_muestra_centro datasetVacio 0 0 2 =
      .wroteThenError (armarMuestraCentro datasetVacio 0 0 2 []) "ZeroDivisionError" :=
  ⟨rfl, rfl, rfl⟩

/-- C6: when a selection yields zero nodes, the output file is written
as an empty, well-formed dataset with zero metadata counts — but the
run then terminates with a fatal `ZeroDivisionError` at the density
print, refuting the claim that the run completes without a fatal
error. Shown for an empty random sample (`max_nodos = 0` on a 2-node
dataset) and for a radius selection on an empty node list. -/
theorem C6_empty_selection_written_then_fatal :
    ((crear_muestra_calles r0 dataset2 0).written =
        some (armarMuestraCalles dataset2 0 []) ∧
      (armarMuestraCalles dataset2 0 []).metadata.total_nodes = 0 ∧
      (armarMuestraCalles dataset2 0 []).metadata.total_edges = 0 ∧
      crear_muestra_calles r0 dataset2 0 =
        .wroteThenError (armarMuestraCalles dataset2 0 []) "ZeroDivisionError") ∧
    ((crear_muestra_centro datasetVacio 0 0 1).written =
        some (armarMuestraCentro datasetVacio 0 0 1 []) ∧
      (armarMuestraCentro datasetVacio 0 0 1 []).metadata.total_nodes = 0 ∧
      (armarMuestraCentro datasetVacio 0 0 1 []).metadata.total_edges = 0 ∧
      crear_muestra_centro datasetVacio 0 0 1 =
        .wroteThenError (armarMuestraCentro datasetVacio 0 0 1 []) "ZeroDivisionError") :=
  ⟨⟨rfl, rfl, rfl, rfl⟩, ⟨rfl, rfl, rfl, rfl⟩⟩

/-- Counterexample for C7: on an input whose metadata has
`city = "Springfield"` and `network_type = "walk"`, the produced output
carries the hard-coded constants `"Culiacán, Sinaloa, México"` and
`"drive"` — the static fields are not carried over from the original
metadata. -/
theorem C7_counterexample :
    (crear_muestra_calles r0 datasetVacio 5).written =
      some (armarMuestraCalles datasetVacio 5 []) ∧
    datasetVacio.metadata.city = "Springfield" ∧
    datasetVacio.metadata.network_type = "walk" ∧
    (armarMuestraCalles datasetVacio 5 []).metadata.city =
      "Culiacán, Sinaloa, México" ∧
    (armarMuestraCalles datasetVacio 5 []).metadata.network_type = "drive" ∧
    (armarMuestraCalles datasetVacio 5 []).metadata.city ≠
      datasetVacio.metadata.city ∧
    (armarMuestraCalles datasetVacio 5 []).metadata.network_type ≠
      datasetVacio.metadata.network_type :=
  ⟨rfl, rfl, rfl, rfl, rfl, by decide, by decide⟩

/-- C7 (amended): the produced metadata's static fields `city`,
`source`, `network_type`, `extracted_date` are fixed constants
(`"Culiacán, Sinaloa, México"`, `"OpenStreetMap via OSMnx"`, `"drive"`,
`"2024-01-15"`) rather than copies of the original metadata (they agree
with the original only when it holds exactly those values), while the
selection parameters (`sample_size`, resp. `center_lat`, `center_lon`,
`radius_km`) and the original counts are recorded. -/
theorem C7_amended_metadata_fields
    (rand : Nat → Nat) (data : Dataset) (max_nodos : Int)
    (centro_lat centro_lon radio_km : ℝ)
    (m₁ : MuestraCalles) (m₂ : MuestraCentro)
    (h₁ : (crear_muestra_calles rand data max_nodos).written = some m₁)
    (h₂ : (crear_muestra_centro data centro_lat centro_lon radio_km).written = some m₂) :
    (m₁.metadata.city = "Culiacán, Sinaloa, México" ∧
      m₁.metadata.source = "OpenStreetMap via OSMnx" ∧
      m₁.metadata.network_type = "drive" ∧
      m₁.metadata.extracted_date = "2024-01-15" ∧
      m₁.metadata.sample_size = max_nodos ∧
      m₁.metadata.original_nodes = data.nodes.length ∧
      m₁.metadata.original_edges = data.edges.length) ∧
    (m₂.metadata.city = "Culiacán, Sinaloa, México" ∧
      m₂.metadata.source = "OpenStreetMap via OSMnx" ∧
      m₂.metadata.network_type = "drive" ∧
      m₂.metadata.extracted_date = "2024-01-15" ∧
      m₂.metadata.center_lat = centro_lat ∧
      m₂.metadata.center_lon = centro_lon ∧
      m₂.metadata.radius_km = radio_km ∧
      m₂.metadata.original_nodes = data.nodes.length ∧
      m₂.metadata.original_edges = data.edges.length) := by
  obtain ⟨nodos, -, rfl⟩ := crear_muestra_calles_written rand data max_nodos m₁ h₁
  rw [crear_muestra_centro_written] at h₂
  have hm₂ := (Option.some_injective _ h₂).symm
  subst hm₂
  exact ⟨⟨rfl, rfl, rfl, rfl, rfl, rfl, rfl⟩,
    ⟨rfl, rfl, rfl, rfl, rfl, rfl, rfl, rfl, rfl⟩⟩

/-- Witness for the amended C7: a concrete run of both pipelines. -/
theorem C7_witness :
    (muestraCalles2.metadata.city = "Culiacán, Sinaloa, México" ∧
      muestraCalles2.metadata.source = "OpenStreetMap via OSMnx" ∧
      muestraCalles2.metadata.network_type = "drive" ∧
      muestraCalles2.metadata.extracted_date = "2024-01-15" ∧
      muestraCalles2.metadata.sample_size = 2 ∧
      muestraCalles2.metadata.original_nodes = dataset2.nodes.length ∧
      muestraCalles2.metadata.original_edges = dataset2.edges.length) ∧
    (muestraCentro2.metadata.city = "Culiacán, Sinaloa, México" ∧
      muestraCentro2.metadata.source = "OpenStreetMap via OSMnx" ∧
      muestraCentro2.metadata.network_type = "drive" ∧
      muestraCentro2.metadata.extracted_date = "2024-01-15" ∧
      muestraCentro2.metadata.center_lat = 0 ∧
      muestraCentro2.metadata.center_lon = 0 ∧
      muestraCentro2.metadata.radius_km = 2 ∧
      muestraCentro2.metadata.original_nodes = dataset2.nodes.length ∧
      muestraCentro2.metadata.original_edges = dataset2.edges.length) :=
  C7_amended_metadata_fields r0 dataset2 2 0 0 2 muestraCalles2 muestraCentro2
    rfl (crear_muestra_centro_written dataset2 0 0 2)

/-- C8: the great-circle function `calcular_distancia` computes exactly
the documented haversine formula (spherical Earth of radius 6371000 m,
degree inputs converted to radians), vanishes on equal points, and is
symmetric in its two points. -/
theorem C8_haversine_properties :
    (∀ lat lon : ℝ, calcular_distancia lat lon lat lon = 0) ∧
    (∀ lat1 lon1 lat2 lon2 : ℝ,
      calcular_distancia lat1 lon1 lat2 lon2 =
        calcular_distancia lat2 lon2 lat1 lon1) ∧
    (∀ lat1 lon1 lat2 lon2 : ℝ,
      calcular_distancia lat1 lon1 lat2 lon2 =
        haversineSpec lat1 lon1 lat2 lon2) := by
  refine ⟨?_, ?_, ?_⟩
  · intro lat lon
    simp [calcular_distancia, radians]
  · intro lat1 lon1 lat2 lon2
    have hsin : ∀ x y : ℝ,
        Real.sin (radians (x - y) / 2) ^ 2 =
          Real.sin (radians (y - x) / 2) ^ 2 := by
      intro x y
      have h : radians (x - y) = -(radians (y - x)) := by unfold radians; ring
      rw [h, neg_div, Real.sin_neg, neg_sq]
    simp only [calcular_distancia]
    rw [hsin lat2 lat1, hsin lon2 lon1,
      mul_comm (Real.cos (radians lat1)) (Real.cos (radians lat2))]
  · intro lat1 lon1 lat2 lon2
    have h : ∀ x y : ℝ, radians (x - y) = radians x - radians y := by
      intro x y; unfold radians; ring
    simp only [calcular_distancia, haversineSpec]
    rw [h, h]
    ring

/-- C9: with the same center, the node set selected at radius `r1` is
contained in the node set selected at a larger radius `r2`, for every
input dataset. -/
theorem C9_radius_monotonicity
    (data : Dataset) (centro_lat centro_lon r1 r2 : ℝ)
    (m₁ m₂ : MuestraCentro) (hr : r1 < r2)
    (h₁ : (crear_muestra_centro data centro_lat centro_lon r1).written = some m₁)
    (h₂ : (crear_muestra_centro data centro_lat centro_lon r2).written = some m₂) :
    m₁.nodes ⊆ m₂.nodes := by
  rw [crear_muestra_centro_written] at h₁ h₂
  have hm₁ := (Option.some_injective _ h₁).symm
  subst hm₁
  have hm₂ := (Option.some_injective _ h₂).symm
  subst hm₂
  intro n hn
  have hn1 : n ∈ filtrarNodosCentro data.nodes centro_lat centro_lon (r1 * 1000) := hn
  rw [mem_filtrarNodosCentro] at hn1
  show n ∈ filtrarNodosCentro data.nodes centro_lat centro_lon (r2 * 1000)
  rw [mem_filtrarNodosCentro]
  refine ⟨hn1.1, le_trans hn1.2 ?_⟩
  have : (0 : ℝ) ≤ 1000 := by norm_num
  nlinarith [hn1.2]

/-- Witness for C9: radii 1 km and 2 km around (0, 0) on `dataset2`. -/
theorem C9_witness : muestraCentro1.nodes ⊆ muestraCentro2.nodes :=
  C9_radius_monotonicity dataset2 0 0 1 2 muestraCentro1 muestraCentro2
    (by norm_num)
    (crear_muestra_centro_written dataset2 0 0 1)
    (crear_muestra_centro_written dataset2 0 0 2)

/-- C10: with a negative `max_nodos`, the sampling step of
`crear_muestra_calles` raises (the requested sample size is negative)
before the output file is opened for writing, so the destination file
is left unchanged. -/
theorem C10_negative_max_nodos_fails_before_write
    (rand : Nat → Nat) (data : Dataset) (max_nodos : Int)
    (h : max_nodos < 0) :
    crear_muestra_calles rand data max_nodos =
      .errorBeforeWrite "Sample larger than population or is negative" ∧
    (crear_muestra_calles rand data max_nodos).written = none := by
  have hmin : min max_nodos ((data.nodes.length : Int)) < 0 :=
    lt_of_le_of_lt (min_le_left _ _) h
  have hs : randomSample rand data.nodes (min max_nodos ((data.nodes.length : Int))) =
      .error "Sample larger than population or is negative" := by
    unfold randomSample
    rw [if_pos (Or.inl hmin)]
  constructor
  · unfold crear_muestra_calles
    rw [hs]
  · unfold crear_muestra_calles
    rw [hs]
    rfl

/-- Witness for C10: `max_nodos = -1` on the two-node `dataset2`. -/
theorem C10_witness :
    crear_muestra_calles r0 dataset2 (-1) =
      .errorBeforeWrite "Sample larger than population or is negative" ∧
    (crear_muestra_calles r0 dataset2 (-1)).written = none :=
  C10_negative_max_nodos_fails_before_write r0 dataset2 (-1) (by decide)
